import Mathlib

/-!
Verification development for the newsapi client library (src/lib.rs).

The library is shallowly embedded: the client type, its configuration
setters, URL preparation, the fetch pipelines and the error mapping are
translated from the Rust source.  The fragments of the third-party crates
the source calls into (`url`, `serde_json` via `ureq::Response::into_json`
and `reqwest::Response::json`) are modelled by executable Lean functions
whose behaviour follows those crates on the class of inputs the library
can produce; simplifications are noted at each definition.

HTTP transport is abstracted as a function argument: a transport maps a
URL and the Authorization header value to either an error or a response
body, which is how both `ureq` and `reqwest` are used by the source.
-/

/- ## Model of the fragment of the `url` crate used by `prepare_url` -/

/-- UTF-8 byte sequence of a unicode scalar value, used by the
percent-encoder (`percent_encoding::utf8_percent_encode`). -/
def utf8Bytes (n : Nat) : List Nat :=
  if n < 0x80 then [n]
  else if n < 0x800 then [0xC0 + n / 0x40, 0x80 + n % 0x40]
  else if n < 0x10000 then
    [0xE0 + n / 0x1000, 0x80 + (n / 0x40) % 0x40, 0x80 + n % 0x40]
  else
    [0xF0 + n / 0x40000, 0x80 + (n / 0x1000) % 0x40,
     0x80 + (n / 0x40) % 0x40, 0x80 + n % 0x40]

/-- Uppercase hexadecimal digit, as emitted by the `url` crate's
percent-encoding. -/
def hexDigit (n : Nat) : Char :=
  if n < 10 then Char.ofNat (48 + n) else Char.ofNat (55 + n)

/-- Percent-encoding of one byte. -/
def percentByte (b : Nat) : List Char :=
  ['%', hexDigit (b / 16), hexDigit (b % 16)]

/-- Membership test for the `SPECIAL_PATH_SEGMENT` encode set of the `url`
crate: C0 controls, DEL and non-ASCII, space, quote, angle brackets,
backtick (96), number sign, question mark, curly braces (123/125), slash,
percent and backslash. -/
def encodeInSpecialPathSegment (c : Char) : Bool :=
  let n := c.toNat
  n < 32 || n ≥ 127 || n = 32 || n = 34 || n = 60 || n = 62 || n = 96 ||
    n = 35 || n = 63 || n = 123 || n = 125 || n = 47 || n = 37 || n = 92

/-- Membership test for the query encode set used by `Url::set_query` on a
special-scheme URL: C0 controls, DEL and non-ASCII, space, quote, number
sign, angle brackets and apostrophe (39). -/
def encodeInSpecialQuery (c : Char) : Bool :=
  let n := c.toNat
  n < 32 || n ≥ 127 || n = 32 || n = 34 || n = 35 || n = 60 || n = 62 || n = 39

/-- Percent-encode one character against an encode set. -/
def encodeChar (inSet : Char → Bool) (c : Char) : List Char :=
  if inSet c then (utf8Bytes c.toNat).map percentByte |>.flatten else [c]

/-- Percent-encode a string against an encode set. -/
def percentEncode (inSet : Char → Bool) (s : String) : String :=
  String.mk ((s.toList.map (encodeChar inSet)).flatten)

/-- Model of `url::Url` restricted to what the library touches: scheme,
host, serialized path and optional serialized query (the parsed base URL
has no username, password, port or fragment, and the library never sets
them). -/
structure Url where
  scheme : String
  host : String
  path : String
  query : Option String
deriving DecidableEq

/-- Split an absolute URL at the first occurrence of the literal `://`,
returning the characters before it (the scheme) and after it. -/
def splitScheme : List Char → Option (List Char × List Char)
  | [] => none
  | ':' :: '/' :: '/' :: rest => some ([], rest)
  | c :: rest => (splitScheme rest).map (fun r => (c :: r.1, r.2))

/-- Model of `url::Url::parse` for absolute URLs of the shape
`scheme://host/path?query`, the only shape the library ever parses (the
constant `BASE_URL`).  Scheme and host are taken verbatim; an input
without a `scheme://host` prefix is rejected, as `Url::parse` rejects it
for the special schemes.  Host-less or cannot-be-a-base URLs are not
produced. -/
def Url.parse (s : String) : Except String Url :=
  match splitScheme s.toList with
  | none => Except.error "relative URL without a base"
  | some (schemeCs, rest) =>
    if schemeCs.isEmpty then Except.error "relative URL without a base"
    else
      let hostCs := rest.takeWhile (fun c => c != '/' && c != '?' && c != '#')
      let after := rest.dropWhile (fun c => c != '/' && c != '?' && c != '#')
      if hostCs.isEmpty then Except.error "empty host"
      else
        let pathCs := after.takeWhile (fun c => c != '?')
        let queryTail := after.dropWhile (fun c => c != '?')
        let path := if pathCs.isEmpty then "/" else String.mk pathCs
        let query : Option String :=
          match queryTail with
          | '?' :: qs => some (String.mk qs)
          | _ => none
        Except.ok ⟨String.mk schemeCs, String.mk hostCs, path, query⟩

/-- Model of `Url::cannot_be_a_base`: a URL with an authority (every URL
produced by `Url.parse` above has a non-empty host) can always be a base. -/
def Url.cannot_be_a_base (u : Url) : Bool :=
  u.host.data.isEmpty

/-- Model of `url.path_segments_mut()` (which fails exactly on
cannot-be-a-base URLs, making the source's `.unwrap()` panic, modelled as
`none`) followed by `.push(segment)`.  `PathSegmentsMut::push` appends a
`'/'` whenever the serialization extends past `path_start + 1`, i.e.
whenever the current path is longer than `"/"` — in particular a path with
a trailing slash (empty last segment) receives a second slash — and then
appends the segment percent-encoded with `SPECIAL_PATH_SEGMENT`. -/
def Url.push_segment (u : Url) (segment : String) : Option Url :=
  if u.cannot_be_a_base then none
  else
    some { u with
      path := (if u.path.length > 1 then u.path ++ "/" else u.path) ++
        percentEncode encodeInSpecialPathSegment segment }

/-- Model of `Url::set_query`: the given string is stored as the query,
percent-encoded with the special-scheme query set. -/
def Url.set_query (u : Url) : Option String → Url
  | none => { u with query := none }
  | some s => { u with query := some (percentEncode encodeInSpecialQuery s) }

/-- Model of `Url`'s `Display`/`to_string`: the serialization of the URL. -/
def Url.to_string (u : Url) : String :=
  u.scheme ++ "://" ++ u.host ++ u.path ++
    (match u.query with
     | none => ""
     | some q => "?" ++ q)

/- ## The library's configuration enumerations and client type -/

/-- `BASE_URL` constant from src/lib.rs. -/
def BASE_URL : String := "https://newsapi.org/v2/"

/-- `enum Endpoint` from src/lib.rs. -/
inductive Endpoint where
  | TopHeadlines
deriving DecidableEq

/-- `impl ToString for Endpoint` from src/lib.rs. -/
def Endpoint.to_string : Endpoint → String
  | .TopHeadlines => "top-headlines"

/-- `enum Country` from src/lib.rs. -/
inductive Country where
  | US
  | SE
deriving DecidableEq

/-- `impl ToString for Country` from src/lib.rs. -/
def Country.to_string : Country → String
  | .US => "us"
  | .SE => "se"

/-- `struct NewsAPI` from src/lib.rs. -/
structure NewsAPI where
  api_key : String
  endpoint : Endpoint
  country : Country
deriving DecidableEq

/-- `NewsAPI::new` from src/lib.rs: defaults to the top-headlines endpoint
and the US country filter. -/
def NewsAPI.new (api_key : String) : NewsAPI :=
  { api_key := api_key, endpoint := Endpoint.TopHeadlines, country := Country.US }

/-- `NewsAPI::endpoint` setter from src/lib.rs (named `set_endpoint` here
because the field projection already carries the Rust method's name); it
overwrites the endpoint selection and returns the same client. -/
def NewsAPI.set_endpoint (api : NewsAPI) (endpoint : Endpoint) : NewsAPI :=
  { api with endpoint := endpoint }

/-- `NewsAPI::country` setter from src/lib.rs (named `set_country` here for
the same reason); it overwrites the country selection and returns the same
client. -/
def NewsAPI.set_country (api : NewsAPI) (country : Country) : NewsAPI :=
  { api with country := country }

/- ## Response data model -/

/-- `struct ArticleSource` from src/lib.rs. -/
structure ArticleSource where
  id : Option String
  name : String
deriving DecidableEq

/-- `struct Article` from src/lib.rs. -/
structure Article where
  source : ArticleSource
  title : String
  author : Option String
  description : Option String
  url : String
deriving DecidableEq

/-- `struct NewsAPIResponse` from src/lib.rs. -/
structure NewsAPIResponse where
  status : String
  totalResults : Nat
  code : Option String
  articles : List Article
deriving DecidableEq

/-- `NewsAPIResponse::articles` accessor from src/lib.rs. -/
def NewsAPIResponse.articles_accessor (r : NewsAPIResponse) : List Article :=
  r.articles

/- ## Model of JSON parsing (`serde_json` as used through
`ureq::Response::into_json` and `reqwest::Response::json`)

The parser below accepts the JSON fragment relevant to the envelope
shape: `null`, `true`, `false`, integer numbers, strings with the simple
escapes and `\uXXXX` (without surrogate-pair combination), arrays and
objects.  Numbers with a fraction or exponent part are not modelled (the
envelope shape holds only an unsigned integer), so a body using them is
treated as unparseable by the model. -/

/-- JSON values. -/
inductive Json where
  | null
  | bool (b : Bool)
  | num (n : Int)
  | str (s : String)
  | arr (xs : List Json)
  | obj (fields : List (String × Json))

/-- JSON whitespace. -/
def isWs (c : Char) : Bool :=
  c = ' ' || c = '\t' || c = '\n' || c = '\r'

/-- Drop leading JSON whitespace. -/
def skipWs : List Char → List Char
  | [] => []
  | c :: cs => if isWs c then skipWs cs else c :: cs

/-- Value of one hexadecimal digit. -/
def hexVal (c : Char) : Option Nat :=
  if '0' ≤ c ∧ c ≤ '9' then some (c.toNat - 48)
  else if 'a' ≤ c ∧ c ≤ 'f' then some (c.toNat - 87)
  else if 'A' ≤ c ∧ c ≤ 'F' then some (c.toNat - 55)
  else none

/-- Parse the body of a JSON string after its opening quote, returning the
decoded characters and the rest of the input.  Raw control characters are
rejected, as `serde_json` rejects them. -/
def parseStringAux : Nat → List Char → Option (List Char × List Char)
  | 0, _ => none
  | _ + 1, [] => none
  | fuel + 1, c :: rest =>
    if c = '"' then some ([], rest)
    else if c = '\\' then
      match rest with
      | [] => none
      | e :: rest2 =>
        if e = '"' ∨ e = '\\' ∨ e = '/' then
          (parseStringAux fuel rest2).map (fun r => (e :: r.1, r.2))
        else if e = 'b' then
          (parseStringAux fuel rest2).map (fun r => (Char.ofNat 8 :: r.1, r.2))
        else if e = 'f' then
          (parseStringAux fuel rest2).map (fun r => (Char.ofNat 12 :: r.1, r.2))
        else if e = 'n' then
          (parseStringAux fuel rest2).map (fun r => ('\n' :: r.1, r.2))
        else if e = 'r' then
          (parseStringAux fuel rest2).map (fun r => ('\r' :: r.1, r.2))
        else if e = 't' then
          (parseStringAux fuel rest2).map (fun r => ('\t' :: r.1, r.2))
        else if e = 'u' then
          match rest2 with
          | h1 :: h2 :: h3 :: h4 :: rest3 =>
            match hexVal h1, hexVal h2, hexVal h3, hexVal h4 with
            | some a, some b, some c2, some d =>
              let n := ((a * 16 + b) * 16 + c2) * 16 + d
              (parseStringAux fuel rest3).map (fun r => (Char.ofNat n :: r.1, r.2))
            | _, _, _, _ => none
          | _ => none
        else none
    else if c.toNat < 32 then none
    else (parseStringAux fuel rest).map (fun r => (c :: r.1, r.2))

/-- Take the leading decimal digits of the input. -/
def takeDigits : List Char → (List Char × List Char)
  | [] => ([], [])
  | c :: cs =>
    if c.isDigit then
      let r := takeDigits cs
      (c :: r.1, r.2)
    else ([], c :: cs)

/-- Numeric value of a digit list. -/
def digitsToNat (ds : List Char) : Nat :=
  ds.foldl (fun acc c => acc * 10 + (c.toNat - 48)) 0

/-- Parse a JSON integer number (optional minus sign, no redundant leading
zero); fraction and exponent parts are not modelled and are rejected. -/
def parseNumber (cs : List Char) : Option (Int × List Char) :=
  let signed := match cs with
    | '-' :: t => (true, t)
    | _ => (false, cs)
  match takeDigits signed.2 with
  | ([], _) => none
  | (ds, rest) =>
    if ds.length > 1 ∧ ds.headD '0' = '0' then none
    else
      let ok : Option (Int × List Char) :=
        some ((if signed.1 then -(digitsToNat ds : Int) else (digitsToNat ds : Int)), rest)
      match rest with
      | c :: _ => if c = '.' ∨ c = 'e' ∨ c = 'E' then none else ok
      | [] => ok

mutual

/-- Parse one JSON value (after optional leading whitespace), returning it
and the rest of the input. -/
def parseValue : Nat → List Char → Option (Json × List Char)
  | 0, _ => none
  | fuel + 1, cs =>
    match skipWs cs with
    | [] => none
    | c :: rest =>
      if c = '"' then
        (parseStringAux (rest.length + 1) rest).map
          (fun r => (Json.str (String.mk r.1), r.2))
      else if c = '[' then
        match skipWs rest with
        | ']' :: rest2 => some (Json.arr [], rest2)
        | _ => (parseElems fuel rest).map (fun r => (Json.arr r.1, r.2))
      else if c = '{' then
        match skipWs rest with
        | '}' :: rest2 => some (Json.obj [], rest2)
        | _ => (parseMembers fuel rest).map (fun r => (Json.obj r.1, r.2))
      else if c = 't' then
        match rest with
        | 'r' :: 'u' :: 'e' :: rest2 => some (Json.bool true, rest2)
        | _ => none
      else if c = 'f' then
        match rest with
        | 'a' :: 'l' :: 's' :: 'e' :: rest2 => some (Json.bool false, rest2)
        | _ => none
      else if c = 'n' then
        match rest with
        | 'u' :: 'l' :: 'l' :: rest2 => some (Json.null, rest2)
        | _ => none
      else
        (parseNumber (c :: rest)).map (fun r => (Json.num r.1, r.2))

/-- Parse the comma-separated elements of a non-empty JSON array up to and
including the closing bracket. -/
def parseElems : Nat → List Char → Option (List Json × List Char)
  | 0, _ => none
  | fuel + 1, cs =>
    match parseValue fuel cs with
    | none => none
    | some (v, rest) =>
      match skipWs rest with
      | ',' :: rest2 => (parseElems fuel rest2).map (fun r => (v :: r.1, r.2))
      | ']' :: rest2 => some ([v], rest2)
      | _ => none

/-- Parse the comma-separated members of a non-empty JSON object up to and
including the closing brace. -/
def parseMembers : Nat → List Char → Option (List (String × Json) × List Char)
  | 0, _ => none
  | fuel + 1, cs =>
    match skipWs cs with
    | '"' :: rest =>
      match parseStringAux (rest.length + 1) rest with
      | none => none
      | some (key, rest2) =>
        match skipWs rest2 with
        | ':' :: rest3 =>
          match parseValue fuel rest3 with
          | none => none
          | some (v, rest4) =>
            match skipWs rest4 with
            | ',' :: rest5 =>
              (parseMembers fuel rest5).map
                (fun r => ((String.mk key, v) :: r.1, r.2))
            | '}' :: rest5 => some ([(String.mk key, v)], rest5)
            | _ => none
        | _ => none
    | _ => none

end

/-- Parse a whole JSON document: one value with nothing but whitespace
around it. -/
def parse_json (s : String) : Option Json :=
  match parseValue (s.toList.length + 1) s.toList with
  | none => none
  | some (v, rest) => if (skipWs rest).isEmpty then some v else none

/- ## Model of the serde deserialization of the envelope shape -/

/-- First value bound to a key in a JSON object. -/
def jlookup (fields : List (String × Json)) (k : String) : Option Json :=
  (fields.find? (fun p => p.1 = k)).map (fun p => p.2)

/-- Duplicate-field check: serde's derived deserializer fails with a
`duplicate field` error when a known field key occurs twice (unknown keys
are ignored, duplicated or not). -/
def dupField (fields : List (String × Json)) (keys : List String) : Bool :=
  keys.any (fun k => decide (2 ≤ (fields.map Prod.fst).count k))

/-- Deserialize a required `String` field. -/
def reqString (fields : List (String × Json)) (k : String) : Except String String :=
  match jlookup fields k with
  | some (Json.str s) => Except.ok s
  | some _ => Except.error ("invalid type for field " ++ k)
  | none => Except.error ("missing field " ++ k)

/-- Deserialize an `Option<String>` field: a missing key and JSON `null`
both give `None`. -/
def optString (fields : List (String × Json)) (k : String) : Except String (Option String) :=
  match jlookup fields k with
  | none => Except.ok none
  | some Json.null => Except.ok none
  | some (Json.str s) => Except.ok (some s)
  | some _ => Except.error ("invalid type for field " ++ k)

/-- Deserialize a required `u32` field: an integer in `[0, 2^32)`. -/
def reqU32 (fields : List (String × Json)) (k : String) : Except String Nat :=
  match jlookup fields k with
  | some (Json.num n) =>
    if 0 ≤ n ∧ n < 4294967296 then Except.ok n.toNat
    else Except.error ("invalid value for field " ++ k)
  | some _ => Except.error ("invalid type for field " ++ k)
  | none => Except.error ("missing field " ++ k)

/-- Derived `Deserialize` for `ArticleSource`. -/
def ArticleSource.deserialize : Json → Except String ArticleSource
  | Json.obj fields =>
    if dupField fields ["id", "name"] then Except.error "duplicate field"
    else do
      let id ← optString fields "id"
      let name ← reqString fields "name"
      return { id := id, name := name }
  | _ => Except.error "invalid type: expected ArticleSource object"

/-- Derived `Deserialize` for `Article`. -/
def Article.deserialize : Json → Except String Article
  | Json.obj fields =>
    if dupField fields ["source", "title", "author", "description", "url"] then
      Except.error "duplicate field"
    else do
      let source ←
        match jlookup fields "source" with
        | some j => ArticleSource.deserialize j
        | none => Except.error "missing field source"
      let title ← reqString fields "title"
      let author ← optString fields "author"
      let description ← optString fields "description"
      let url ← reqString fields "url"
      return { source := source, title := title, author := author,
               description := description, url := url }
  | _ => Except.error "invalid type: expected Article object"

/-- Derived `Deserialize` for `NewsAPIResponse`. -/
def NewsAPIResponse.deserialize : Json → Except String NewsAPIResponse
  | Json.obj fields =>
    if dupField fields ["status", "totalResults", "code", "articles"] then
      Except.error "duplicate field"
    else do
      let status ← reqString fields "status"
      let totalResults ← reqU32 fields "totalResults"
      let code ← optString fields "code"
      let articles ←
        match jlookup fields "articles" with
        | some (Json.arr xs) => xs.mapM Article.deserialize
        | some _ => Except.error "invalid type for field articles"
        | none => Except.error "missing field articles"
      return { status := status, totalResults := totalResults,
               code := code, articles := articles }
  | _ => Except.error "invalid type: expected NewsAPIResponse object"

/-- Deserialization of a response body into the envelope, as performed by
`ureq::Response::into_json::<NewsAPIResponse>()` (and by
`reqwest::Response::json::<NewsAPIResponse>()` in the async path): parse
the body as JSON and run the derived deserializer. -/
def into_json (body : String) : Except String NewsAPIResponse :=
  match parse_json body with
  | none => Except.error "Failed to parse JSON"
  | some j => NewsAPIResponse.deserialize j

/- ## Error taxonomy -/

/-- `enum NewsApiError` from src/lib.rs.  The wrapped third-party error
values (`reqwest::Error`, `ureq::Error`, `std::io::Error`,
`serde_json::Error`, `url::ParseError`) are modelled as their message
strings; `UnknownError` and `BadRequest` carry `&'static str` messages in
the source. -/
inductive NewsApiError where
  | AsyncRequestError (e : String)
  | TransportError (e : String)
  | ConversionError (e : String)
  | ParseError (e : String)
  | UrlParseError (e : String)
  | UnknownError (msg : String)
  | BadRequest (msg : String)
deriving DecidableEq

/-- `map_response_err` from src/lib.rs. -/
def map_response_err (code : Option String) : NewsApiError :=
  match code with
  | some code =>
    if code = "apiKeyDisabled" then NewsApiError.BadRequest "Your API key has been disabled"
    else NewsApiError.UnknownError "Unknown error"
  | none => NewsApiError.UnknownError "Unknown Error"

/- ## prepare_url -/

/-- `NewsAPI::prepare_url` from src/lib.rs.  The outer `Option` models the
panic of the `.unwrap()` on `path_segments_mut()` (`none` = panic); the
inner `Except` is the function's `Result`.  The `?` on `Url::parse` maps a
parse error to `UrlParseError`. -/
def NewsAPI.prepare_url (api : NewsAPI) : Option (Except NewsApiError String) :=
  match Url.parse BASE_URL with
  | Except.error e => some (Except.error (NewsApiError.UrlParseError e))
  | Except.ok url =>
    match url.push_segment api.endpoint.to_string with
    | none => none
    | some url =>
      let country := "country=" ++ api.country.to_string
      let url := url.set_query (some country)
      some (Except.ok url.to_string)

/- ## fetch and fetch_async -/

/-- Transport abstraction: a function from the request URL and the
`Authorization` header value (the raw API key) to either a transport-level
error or the response body delivered to the JSON decoder. -/
def Transport : Type := String → String → Except String String

/-- `NewsAPI::fetch` from src/lib.rs.  The `?` on `req.call()` converts a
`ureq::Error` into `TransportError`; the `?` on `.into_json()` converts
the `std::io::Error` returned by `ureq::Response::into_json` — which is
also what a `serde_json` failure is wrapped in by that method — into
`ConversionError`.  No `serde_json::Error` reaches the `?` operator, so
the `ParseError` variant is never produced.  The outer `Option` propagates
the modelled panic of `prepare_url`. -/
def NewsAPI.fetch (api : NewsAPI) (http : Transport) :
    Option (Except NewsApiError NewsAPIResponse) :=
  match api.prepare_url with
  | none => none
  | some (Except.error e) => some (Except.error e)
  | some (Except.ok url) =>
    match http url api.api_key with
    | Except.error e => some (Except.error (NewsApiError.TransportError e))
    | Except.ok body =>
      match into_json body with
      | Except.error e => some (Except.error (NewsApiError.ConversionError e))
      | Except.ok json =>
        if json.status = "ok" then some (Except.ok json)
        else some (Except.error (map_response_err json.code))

/-- `NewsAPI::fetch_async` from src/lib.rs (feature `async`).  The `?` on
`.build()?`, on `client.execute(req).await?` and on `.json().await?` all
convert a `reqwest::Error` into `AsyncRequestError` — in particular a
`serde_json` failure inside `reqwest::Response::json` surfaces as
`AsyncRequestError`, not as `ParseError` or `ConversionError`.  The
transport argument covers building and executing the request and reading
the body. -/
def NewsAPI.fetch_async (api : NewsAPI) (http : Transport) :
    Option (Except NewsApiError NewsAPIResponse) :=
  match api.prepare_url with
  | none => none
  | some (Except.error e) => some (Except.error e)
  | some (Except.ok url) =>
    match http url api.api_key with
    | Except.error e => some (Except.error (NewsApiError.AsyncRequestError e))
    | Except.ok body =>
      match into_json body with
      | Except.error e => some (Except.error (NewsApiError.AsyncRequestError e))
      | Except.ok json =>
        if json.status = "ok" then some (Except.ok json)
        else some (Except.error (map_response_err json.code))

/- ## Sequences of configuration calls -/

/-- One builder-style configuration call on a client. -/
inductive ConfigCall where
  | endpoint (e : Endpoint)
  | country (c : Country)

/-- Apply one configuration call. -/
def applyCall (api : NewsAPI) : ConfigCall → NewsAPI
  | ConfigCall.endpoint e => api.set_endpoint e
  | ConfigCall.country c => api.set_country c

/-- Apply a chained sequence of configuration calls, left to right. -/
def applyCalls (api : NewsAPI) (calls : List ConfigCall) : NewsAPI :=
  calls.foldl applyCall api

/-- Last endpoint selected by a call sequence, starting from a default. -/
def lastEndpoint (d : Endpoint) (calls : List ConfigCall) : Endpoint :=
  calls.foldl
    (fun acc call =>
      match call with
      | ConfigCall.endpoint e => e
      | ConfigCall.country _ => acc) d

/-- Last country selected by a call sequence, starting from a default. -/
def lastCountry (d : Country) (calls : List ConfigCall) : Country :=
  calls.foldl
    (fun acc call =>
      match call with
      | ConfigCall.endpoint _ => acc
      | ConfigCall.country c => c) d

/- ## Miscellaneous helpers for the statements below -/

/-- Decidable equality for `Except`, used to evaluate fetch results on
concrete inputs. -/
instance {E A : Type} [DecidableEq E] [DecidableEq A] : DecidableEq (Except E A)
  | Except.ok a, Except.ok b =>
    if h : a = b then isTrue (by rw [h])
    else isFalse (by intro hc; cases hc; exact h rfl)
  | Except.error a, Except.error b =>
    if h : a = b then isTrue (by rw [h])
    else isFalse (by intro hc; cases hc; exact h rfl)
  | Except.ok _, Except.error _ => isFalse (by intro hc; cases hc)
  | Except.error _, Except.ok _ => isFalse (by intro hc; cases hc)

/-- Discriminator: did a fetch outcome fail with the `ParseError` kind? -/
def returnedParseError : Option (Except NewsApiError NewsAPIResponse) → Bool
  | some (Except.error (NewsApiError.ParseError _)) => true
  | _ => false

/-- Discriminator: did a fetch outcome return a (parsed) envelope? -/
def returnedEnvelope : Option (Except NewsApiError NewsAPIResponse) → Bool
  | some (Except.ok _) => true
  | _ => false

/-- Envelope body whose status is not `"ok"` and whose code is
`apiKeyDisabled`, used as a concrete witness input. -/
def apiKeyDisabledBody : String :=
  "\x7b\"status\":\"error\",\"code\":\"apiKeyDisabled\",\"totalResults\":0,\"articles\":[]\x7d"

/-- Envelope value that `apiKeyDisabledBody` deserializes to. -/
def apiKeyDisabledEnvelope : NewsAPIResponse :=
  { status := "error", totalResults := 0, code := some "apiKeyDisabled", articles := [] }

/-- Envelope body with status `"ok"`, used as a concrete witness input. -/
def okBody : String :=
  "\x7b\"status\":\"ok\",\"totalResults\":1,\"articles\":[\x7b\"source\":\x7b\"id\":null,\"name\":\"BBC\"\x7d,\"title\":\"T\",\"author\":null,\"description\":null,\"url\":\"http://x\"\x7d]\x7d"

/-- Envelope value that `okBody` deserializes to. -/
def okEnvelope : NewsAPIResponse :=
  { status := "ok", totalResults := 1, code := none,
    articles := [{ source := { id := none, name := "BBC" }, title := "T",
                   author := none, description := none, url := "http://x" }] }

/-- Envelope body with a failure status and no `code` field, used as a
concrete witness input. -/
def noCodeBody : String :=
  "\x7b\"status\":\"error\",\"totalResults\":0,\"articles\":[]\x7d"

/-- Envelope value that `noCodeBody` deserializes to. -/
def noCodeEnvelope : NewsAPIResponse :=
  { status := "error", totalResults := 0, code := none, articles := [] }

/- ## Helper lemmas shared by the claim theorems -/

set_option maxRecDepth 100000

/-- Evaluation of `prepare_url` on an arbitrary client: it always succeeds
(no panic, no `UrlParseError`) and returns the serialized URL, whose path
carries a double slash because the base path `/v2/` already ends in a
slash when the endpoint segment is pushed. -/
theorem prepare_url_eq (api : NewsAPI) :
    api.prepare_url =
      some (Except.ok ("https://newsapi.org/v2//" ++ api.endpoint.to_string ++
        "?country=" ++ api.country.to_string)) := by
  obtain ⟨k, e, c⟩ := api
  cases e
  cases c <;> rfl

/-- Evaluation of `fetch` when the transport delivers a body that
deserializes to an envelope: the result is decided by the status check. -/
theorem fetch_ok_body (api : NewsAPI) (body : String) (resp : NewsAPIResponse)
    (h : into_json body = Except.ok resp) :
    api.fetch (fun _ _ => Except.ok body) =
      (if resp.status = "ok" then some (Except.ok resp)
       else some (Except.error (map_response_err resp.code))) := by
  simp only [NewsAPI.fetch, prepare_url_eq, h]

/-- Evaluation of `fetch_async` when the transport delivers a body that
deserializes to an envelope: the result is decided by the status check. -/
theorem fetch_async_ok_body (api : NewsAPI) (body : String) (resp : NewsAPIResponse)
    (h : into_json body = Except.ok resp) :
    api.fetch_async (fun _ _ => Except.ok body) =
      (if resp.status = "ok" then some (Except.ok resp)
       else some (Except.error (map_response_err resp.code))) := by
  simp only [NewsAPI.fetch_async, prepare_url_eq, h]

/-- State of a client after a chained sequence of configuration calls:
the api key is untouched and each field holds the last value set for it
(or its previous value when the sequence never sets it). -/
theorem applyCalls_spec (calls : List ConfigCall) : ∀ api : NewsAPI,
    (applyCalls api calls).api_key = api.api_key ∧
    (applyCalls api calls).endpoint = lastEndpoint api.endpoint calls ∧
    (applyCalls api calls).country = lastCountry api.country calls := by
  induction calls with
  | nil => intro api; exact ⟨rfl, rfl, rfl⟩
  | cons x xs ih =>
    intro api
    have h := ih (applyCall api x)
    cases x with
    | endpoint e => exact ⟨h.1, h.2.1, h.2.2⟩
    | country c => exact ⟨h.1, h.2.1, h.2.2⟩

/- ## Claim theorems -/

/-- Claim C1 (code_bug): the claim expects the default client's
`prepare_url()` to return exactly
`https://newsapi.org/v2/top-headlines?country=us`.  The code instead
returns `https://newsapi.org/v2//top-headlines?country=us` with a double
slash: `BASE_URL` ends in a slash, so the parsed base path `/v2/` has an
empty trailing segment, and `PathSegmentsMut::push` appends a further
slash before the endpoint segment. -/
theorem c1_default_prepare_url_eval :
    (NewsAPI.new "test-key").prepare_url =
      some (Except.ok "https://newsapi.org/v2//top-headlines?country=us") ∧
    (NewsAPI.new "test-key").prepare_url ≠
      some (Except.ok "https://newsapi.org/v2/top-headlines?country=us") := by
  exact ⟨by decide, by decide⟩

/-- Claim C2 (counterexample): read with a single slash between the base
and the endpoint segment, the claimed URL shape is wrong — for the client
configured with country SE, `prepare_url()` is not
`https://newsapi.org/v2/top-headlines?country=se` but the double-slash
variant. -/
theorem c2_counterexample :
    ((NewsAPI.new "key").set_country Country.SE).prepare_url ≠
      some (Except.ok "https://newsapi.org/v2/top-headlines?country=se") ∧
    ((NewsAPI.new "key").set_country Country.SE).prepare_url =
      some (Except.ok "https://newsapi.org/v2//top-headlines?country=se") := by
  exact ⟨by decide, by decide⟩

/-- Claim C2 (amended): for every choice of endpoint and country,
`prepare_url()` returns `<base>` + `/` + `<endpoint-str>` + `?country=` +
`<country-str>` — since the base constant itself ends in `/`, the rendered
URL carries a double slash before the endpoint segment — where
TopHeadlines renders as `top-headlines`, US as `us` and SE as `se`, and
the query string is exactly the one country parameter. -/
theorem c2_prepare_url_shape :
    (∀ (k : String) (e : Endpoint) (c : Country),
      (NewsAPI.mk k e c).prepare_url =
        some (Except.ok (BASE_URL ++ "/" ++ e.to_string ++ "?country=" ++ c.to_string))) ∧
    Endpoint.to_string Endpoint.TopHeadlines = "top-headlines" ∧
    Country.to_string Country.US = "us" ∧
    Country.to_string Country.SE = "se" := by
  refine ⟨?_, rfl, rfl, rfl⟩
  intro k e c
  cases e
  cases c <;> rfl

/-- Claim C3: `map_response_err(Some("apiKeyDisabled"))` is the BadRequest
kind with exactly the message "Your API key has been disabled", and a
fetch whose parsed envelope has a non-"ok" status and that code fails with
that error. -/
theorem c3_api_key_disabled_mapping :
    map_response_err (some "apiKeyDisabled") =
      NewsApiError.BadRequest "Your API key has been disabled" ∧
    ∀ (api : NewsAPI) (body : String) (resp : NewsAPIResponse),
      into_json body = Except.ok resp →
      resp.status ≠ "ok" →
      resp.code = some "apiKeyDisabled" →
      api.fetch (fun _ _ => Except.ok body) =
        some (Except.error (NewsApiError.BadRequest "Your API key has been disabled")) := by
  refine ⟨by decide, ?_⟩
  intro api body resp hparse hstatus hcode
  rw [fetch_ok_body api body resp hparse, if_neg hstatus, hcode]
  decide

/-- Witness for claim C3 at a concrete body with status `error` and code
`apiKeyDisabled`. -/
theorem c3_witness :
    into_json apiKeyDisabledBody = Except.ok apiKeyDisabledEnvelope ∧
    apiKeyDisabledEnvelope.status ≠ "ok" ∧
    apiKeyDisabledEnvelope.code = some "apiKeyDisabled" ∧
    (NewsAPI.new "key").fetch (fun _ _ => Except.ok apiKeyDisabledBody) =
      some (Except.error (NewsApiError.BadRequest "Your API key has been disabled")) :=
  ⟨by decide, by decide, by decide,
   c3_api_key_disabled_mapping.2 (NewsAPI.new "key") apiKeyDisabledBody
     apiKeyDisabledEnvelope (by decide) (by decide) (by decide)⟩

/-- Claim C4: every code other than `apiKeyDisabled` maps to UnknownError
with exactly "Unknown error", a missing code maps to UnknownError with
exactly "Unknown Error", and the two literals differ only in that
capitalization. -/
theorem c4_unknown_error_literals :
    (∀ code : String, code ≠ "apiKeyDisabled" →
      map_response_err (some code) = NewsApiError.UnknownError "Unknown error") ∧
    map_response_err none = NewsApiError.UnknownError "Unknown Error" ∧
    "Unknown error" ≠ "Unknown Error" ∧
    "Unknown error".data.map Char.toLower = "Unknown Error".data.map Char.toLower := by
  refine ⟨?_, rfl, by decide, by decide⟩
  intro code h
  simp only [map_response_err]
  rw [if_neg h]

/-- Witness for claim C4 at the concrete unrecognized code `rateLimited`. -/
theorem c4_witness :
    ("rateLimited" : String) ≠ "apiKeyDisabled" ∧
    map_response_err (some "rateLimited") = NewsApiError.UnknownError "Unknown error" :=
  ⟨by decide, c4_unknown_error_literals.1 "rateLimited" (by decide)⟩

/-- Claim C5: for every body that deserializes to an envelope, fetch
returns that envelope as success exactly when its status is the literal
"ok", and for any other status it fails with exactly `map_response_err`
of the envelope's optional code. -/
theorem c5_status_gate :
    ∀ (api : NewsAPI) (body : String) (resp : NewsAPIResponse),
      into_json body = Except.ok resp →
      ((api.fetch (fun _ _ => Except.ok body) = some (Except.ok resp)) ↔
        resp.status = "ok") ∧
      (resp.status ≠ "ok" →
        api.fetch (fun _ _ => Except.ok body) =
          some (Except.error (map_response_err resp.code))) := by
  intro api body resp hparse
  rw [fetch_ok_body api body resp hparse]
  constructor
  · constructor
    · intro h
      by_contra hs
      rw [if_neg hs] at h
      simp at h
    · intro h
      rw [if_pos h]
  · intro h
    rw [if_neg h]

/-- Witness for claim C5 at a concrete body with status `ok`. -/
theorem c5_witness :
    into_json okBody = Except.ok okEnvelope ∧
    (((NewsAPI.new "key").fetch (fun _ _ => Except.ok okBody) =
        some (Except.ok okEnvelope)) ↔ okEnvelope.status = "ok") ∧
    (okEnvelope.status ≠ "ok" →
      (NewsAPI.new "key").fetch (fun _ _ => Except.ok okBody) =
        some (Except.error (map_response_err okEnvelope.code))) :=
  ⟨by decide, c5_status_gate (NewsAPI.new "key") okBody okEnvelope (by decide)⟩

/-- Claim C6 (code_bug): on a body that is not valid JSON for the envelope
shape, fetch fails — no envelope is produced — but with the
ConversionError kind, not the ParseError kind the claim names:
`ureq::Response::into_json` wraps the `serde_json` failure in a
`std::io::Error`, which the `?` operator converts into `ConversionError`;
no code path ever constructs `ParseError`. -/
theorem c6_invalid_json_kind :
    (NewsAPI.new "key").fetch (fun _ _ => Except.ok "not json") =
      some (Except.error (NewsApiError.ConversionError "Failed to parse JSON")) ∧
    returnedParseError ((NewsAPI.new "key").fetch (fun _ _ => Except.ok "not json")) = false ∧
    returnedEnvelope ((NewsAPI.new "key").fetch (fun _ _ => Except.ok "not json")) = false := by
  exact ⟨by decide, by decide, by decide⟩

/-- Claim C7: the setters are last-write-wins and idempotent — setting the
same country twice equals setting it once, a call sequence leaves exactly
the last value set for each field, and the prepared URL carries exactly
one country parameter, with no accumulation of prior selections. -/
theorem c7_setters_last_write_wins :
    (∀ (api : NewsAPI) (c : Country),
      (api.set_country c).set_country c = api.set_country c) ∧
    (∀ (api : NewsAPI) (e : Endpoint),
      (api.set_endpoint e).set_endpoint e = api.set_endpoint e) ∧
    (∀ (api : NewsAPI) (calls : List ConfigCall),
      (applyCalls api calls).endpoint = lastEndpoint api.endpoint calls ∧
      (applyCalls api calls).country = lastCountry api.country calls) ∧
    (∀ (api : NewsAPI) (calls : List ConfigCall),
      (applyCalls api calls).prepare_url =
        some (Except.ok ("https://newsapi.org/v2//" ++
          (lastEndpoint api.endpoint calls).to_string ++ "?country=" ++
          (lastCountry api.country calls).to_string))) := by
  refine ⟨fun api c => rfl, fun api e => rfl, ?_, ?_⟩
  · intro api calls
    exact ⟨(applyCalls_spec calls api).2.1, (applyCalls_spec calls api).2.2⟩
  · intro api calls
    rw [prepare_url_eq, (applyCalls_spec calls api).2.1, (applyCalls_spec calls api).2.2]

/-- Claim C8 (counterexample): given the same undeserializable response
body, the synchronous and asynchronous fetches do not produce the same
error kind — the sync path yields ConversionError while the async path
yields AsyncRequestError. -/
theorem c8_counterexample :
    (NewsAPI.new "key").fetch (fun _ _ => Except.ok "oops") ≠
      (NewsAPI.new "key").fetch_async (fun _ _ => Except.ok "oops") ∧
    (NewsAPI.new "key").fetch (fun _ _ => Except.ok "oops") =
      some (Except.error (NewsApiError.ConversionError "Failed to parse JSON")) ∧
    (NewsAPI.new "key").fetch_async (fun _ _ => Except.ok "oops") =
      some (Except.error (NewsApiError.AsyncRequestError "Failed to parse JSON")) := by
  exact ⟨by decide, by decide, by decide⟩

/-- Claim C8 (amended): for every client and every response body that
deserializes to the envelope shape, fetch and fetch_async produce the
identical result — the same URL is prepared by the shared `prepare_url`,
the same envelope is returned when the status is "ok", and the same error
kind and message otherwise; the two paths differ only on bodies that fail
to deserialize. -/
theorem c8_sync_async_agree_on_parsed_bodies :
    ∀ (api : NewsAPI) (body : String) (resp : NewsAPIResponse),
      into_json body = Except.ok resp →
      api.fetch (fun _ _ => Except.ok body) =
        api.fetch_async (fun _ _ => Except.ok body) := by
  intro api body resp hparse
  rw [fetch_ok_body api body resp hparse, fetch_async_ok_body api body resp hparse]

/-- Witness for amended claim C8 at a concrete deserializable body with a
failure status and no code. -/
theorem c8_witness :
    into_json noCodeBody = Except.ok noCodeEnvelope ∧
    (NewsAPI.new "key").fetch (fun _ _ => Except.ok noCodeBody) =
      (NewsAPI.new "key").fetch_async (fun _ _ => Except.ok noCodeBody) :=
  ⟨by decide,
   c8_sync_async_agree_on_parsed_bodies (NewsAPI.new "key") noCodeBody
     noCodeEnvelope (by decide)⟩

/-- Claim C9: `prepare_url` is total — for every reachable client state it
returns `Ok` of some string; neither the `UrlParseError` branch nor the
modelled panic of the `.unwrap()` on `path_segments_mut()` is reachable,
because the fixed base URL parses successfully into a URL with an
authority. -/
theorem c9_prepare_url_total :
    ∀ (k : String) (e : Endpoint) (c : Country),
      ∃ s : String, (NewsAPI.mk k e c).prepare_url = some (Except.ok s) := by
  intro k e c
  exact ⟨_, prepare_url_eq (NewsAPI.mk k e c)⟩

/-- Claim C10: frame property of configuration — `set_endpoint` changes
only the endpoint field, `set_country` changes only the country field, and
no sequence of configuration calls after construction ever modifies the
api key. -/
theorem c10_frame :
    (∀ (api : NewsAPI) (e : Endpoint),
      (api.set_endpoint e).api_key = api.api_key ∧
      (api.set_endpoint e).country = api.country ∧
      (api.set_endpoint e).endpoint = e) ∧
    (∀ (api : NewsAPI) (c : Country),
      (api.set_country c).api_key = api.api_key ∧
      (api.set_country c).endpoint = api.endpoint ∧
      (api.set_country c).country = c) ∧
    (∀ (api : NewsAPI) (calls : List ConfigCall),
      (applyCalls api calls).api_key = api.api_key) := by
  exact ⟨fun api e => ⟨rfl, rfl, rfl⟩, fun api c => ⟨rfl, rfl, rfl⟩,
    fun api calls => (applyCalls_spec calls api).1⟩
